import Mathlib

/-!
Shallow embedding of the velocity-transit-story choreography code
(slideAnimator module and the main driver module) and proofs about it.

Modelling conventions:
* JavaScript objects become Lean structures; a field that may be absent
  (undefined) becomes an Option.
* Mutation of SDK objects (map view, layers, time slider) becomes explicit
  state passing on an AppState record.
* Asynchronous SDK calls that the code merely fires (goTo, play, stop,
  layer when) are recorded in traces so that theorems can speak about
  which calls were made and in which order.
* A JavaScript exception (TypeError on an undefined property access,
  ReferenceError on an unbound identifier) is modelled as Except.error
  carrying the message; code that catches and logs becomes a function
  that turns the error into a log entry and continues.
-/

/-- Model of a JavaScript Date constructed from a value that may be
undefined: new Date(undefined) yields an Invalid Date. -/
inductive JSDate
  | fromString (s : String)
  | invalid
  deriving DecidableEq, Repr

/-- Model of the JavaScript expression new Date(x) where x may be absent. -/
def newDate : Option String → JSDate
  | some s => JSDate.fromString s
  | none => JSDate.invalid

/-- Truthiness of a possibly-absent string value: undefined and the empty
string are falsy, every other string is truthy. -/
def truthyStr : Option String → Bool
  | some s => !s.isEmpty
  | none => false

/-- The timeSlider sub-object of a slide, fields as read by the source
(timeSliderStart, timeSliderEnd, timeSliderUnit, timeSliderStep). -/
structure TimeSliderConfig where
  timeSliderStart : Option String
  timeSliderEnd : Option String
  timeSliderUnit : Option String
  timeSliderStep : Option Int
  deriving DecidableEq, Repr

/-- The layerVisibility sub-object of a slide: two optional lists of layer
titles. -/
structure LayerVisibilityConfig where
  layersOn : Option (List String)
  layersOff : Option (List String)
  deriving DecidableEq, Repr

/-- The trackRenderer sub-object of a slide. trackInfo is an opaque
styling payload, kept as a string. -/
structure TrackRendererConfig where
  trackLayerName : String
  trackFieldName : String
  trackInfo : String
  deriving DecidableEq, Repr

/-- One slide of the choreography sequence. The five keys of the handler
table are modelled as Option fields (present key = some). The source in
addition reads two top-level fields from a slide: config.timeSliderStart in
the reset-button click handler and config.timeSliderAutoplay in
updateResetButtonState; both are modelled here at the top level exactly as
read (timeSliderAutoplay is reduced to its truthiness). -/
structure SlideConfig where
  viewpoint : Option String
  camera : Option String
  timeSlider : Option TimeSliderConfig
  layerVisibility : Option LayerVisibilityConfig
  trackRenderer : Option TrackRendererConfig
  timeSliderStart : Option String
  timeSliderAutoplay : Bool
  deriving DecidableEq, Repr

/-- The interval record stored into timeSlider.stops (value, unit). -/
structure StopsInterval where
  value : Option Int
  unit : Option String
  deriving DecidableEq, Repr

/-- A time extent: {start, end}. The end field is named end' because end
is a reserved word in Lean. -/
structure TimeExtent where
  start : Option JSDate
  end' : Option JSDate
  deriving DecidableEq, Repr

/-- Calls made on the time slider component that we trace. -/
inductive SliderCall
  | play
  | stop
  deriving DecidableEq, Repr

/-- The arcgis-time-slider component: the fields the source reads or
writes. The state field is the string the SDK exposes ("ready" etc.). -/
structure TimeSlider where
  fullTimeExtent : Option TimeExtent
  timeExtent : Option TimeExtent
  stops : Option StopsInterval
  state : String
  deriving DecidableEq, Repr

/-- The timeInfo record of a feature layer. -/
structure TimeInfo where
  startField : String
  trackIdField : Option String
  interval : Option StopsInterval
  deriving DecidableEq, Repr

/-- A map layer: the fields the source reads or writes (title, visible,
timeInfo, trackInfo). trackInfo is an opaque styling payload. -/
structure MapLayer where
  title : String
  visible : Bool
  timeInfo : TimeInfo
  trackInfo : Option String
  deriving DecidableEq, Repr

/-- Target of a mapView.goTo call. The deserialized Viewpoint or Camera is
kept symbolic as the raw JSON value it was built from. -/
inductive GoToTarget
  | viewpoint (json : Option String)
  | camera (json : Option String)
  deriving DecidableEq, Repr

/-- One mapView.goTo call with its animation options. -/
structure GoToCall where
  target : GoToTarget
  animate : Bool
  duration : Nat
  deriving DecidableEq, Repr

/-- Operations performed by the trackRenderer handler, traced in order. -/
inductive TrackOp
  | remove (title : String)
  | clone
  | add (index : Nat)
  | awaitLoad
  | setVisible (v : Bool)
  | setTimeInfo (ti : TimeInfo)
  | setTrackInfo (s : String)
  deriving DecidableEq, Repr

/-- The map view: its layer collection and the trace of goTo calls. -/
structure MapView where
  layers : List MapLayer
  goToCalls : List GoToCall
  deriving DecidableEq, Repr

/-- The mutable SDK state the handlers touch: the map view, the (possibly
absent) time-slider component, and traces of play/stop calls and of
trackRenderer operations. -/
structure AppState where
  mapView : MapView
  timeSlider : Option TimeSlider
  sliderTrace : List SliderCall
  trackOps : List TrackOp
  deriving DecidableEq, Repr

/-- Handler for the viewpoint key: builds a Viewpoint from
slideData.viewpoint and animates the view to it over 1000ms. The goTo
promise rejection is caught inside the handler, so the handler itself
never throws. -/
def toggleViewpoint (slideData : SlideConfig) (st : AppState) :
    Except String AppState :=
  Except.ok { st with
    mapView := { st.mapView with
      goToCalls := st.mapView.goToCalls ++
        [{ target := GoToTarget.viewpoint slideData.viewpoint,
           animate := true, duration := 1000 }] } }

/-- Handler for the camera key. The source returns early when
slideData.camera is falsy; otherwise it evaluates Camera.fromJSON, but the
identifier Camera is not imported anywhere in the module (only Viewpoint
is), so JavaScript throws a ReferenceError before any goTo is issued. -/
def toggleCamera (slideData : SlideConfig) (st : AppState) :
    Except String AppState :=
  if !truthyStr slideData.camera then Except.ok st
  else Except.error "ReferenceError: Camera is not defined"

/-- Handler for the timeSlider key: when the slider component exists and
the config has truthy start and end, sets the full extent, the current
extent and the stop interval, then plays when the slider state is "ready"
and not embedded, stops when "ready" and embedded, and otherwise only
logs. -/
def toggleTimeSlider (slideData : SlideConfig) (st : AppState)
    (embedded : Bool) : AppState :=
  match st.timeSlider, slideData.timeSlider with
  | some ts, some cfg =>
    if truthyStr cfg.timeSliderStart && truthyStr cfg.timeSliderEnd then
      let startFrame := newDate cfg.timeSliderStart
      let endFrame := newDate cfg.timeSliderEnd
      let ts' := { ts with
        fullTimeExtent := some { start := some startFrame, end' := some endFrame },
        timeExtent := some { start := none, end' := some startFrame },
        stops := some { value := cfg.timeSliderStep, unit := cfg.timeSliderUnit } }
      if ts.state == "ready" && !embedded then
        { st with timeSlider := some ts',
                  sliderTrace := st.sliderTrace ++ [SliderCall.play] }
      else if ts.state == "ready" && embedded then
        { st with timeSlider := some ts',
                  sliderTrace := st.sliderTrace ++ [SliderCall.stop] }
      else
        { st with timeSlider := some ts' }
    else st
  | _, _ => st

/-- Inner helper of the layerVisibility handler: when the name list is
present and non-empty, sets visible on every layer whose title is in the
list; all other layers and all other fields are untouched. -/
def setLayerVisibility (layerNames : Option (List String))
    (visibility : Bool) (mapLayers : List MapLayer) : List MapLayer :=
  match layerNames with
  | some names =>
    if names.length > 0 then
      mapLayers.map (fun l =>
        if names.contains l.title then { l with visible := visibility } else l)
    else mapLayers
  | none => mapLayers

/-- Handler for the layerVisibility key: turns on the layersOn titles then
turns off the layersOff titles. Reading layersOn of an undefined
layerVisibility value throws a TypeError (caught by the dispatcher). -/
def toggleLayerVisibility (slideData : SlideConfig) (st : AppState) :
    Except String AppState :=
  match slideData.layerVisibility with
  | none => Except.error
      "TypeError: cannot read layersOn of undefined"
  | some lv =>
    Except.ok { st with
      mapView := { st.mapView with
        layers := setLayerVisibility lv.layersOff false
          (setLayerVisibility lv.layersOn true st.mapView.layers) } }

/-- Handler for the trackRenderer key. The inner async function catches
every error itself, so this handler never throws to the dispatcher: when
slideData.trackRenderer or slideData.timeSlider is absent the TypeError is
logged internally and the state is unchanged; likewise when no layer with
the configured title exists nothing happens. Otherwise: remove the found
layer, clone it, re-add the clone at the original index, await its load,
set it visible, overwrite its timeInfo (keeping the startField read from
the loaded clone, trackIdField from trackFieldName, interval from the
timeSlider unit and step of the slide) and overwrite its trackInfo. -/
def toggleTrackRenderer (slideData : SlideConfig) (st : AppState) :
    AppState :=
  match slideData.trackRenderer, slideData.timeSlider with
  | some tr, some cfg =>
    let mapLayers := st.mapView.layers
    match mapLayers.findIdx? (fun l => l.title == tr.trackLayerName) with
    | some layerIndex =>
      match mapLayers[layerIndex]? with
      | some origLayer =>
        let removed := mapLayers.eraseIdx layerIndex
        let clone := origLayer
        let trackStartField := clone.timeInfo.startField
        let newTimeInfo : TimeInfo :=
          { startField := trackStartField,
            trackIdField := some tr.trackFieldName,
            interval := some { value := cfg.timeSliderStep,
                               unit := cfg.timeSliderUnit } }
        let clone' := { clone with
          visible := true, timeInfo := newTimeInfo,
          trackInfo := some tr.trackInfo }
        { st with
          mapView := { st.mapView with
            layers := removed.take layerIndex ++ [clone'] ++
                      removed.drop layerIndex },
          trackOps := st.trackOps ++
            [TrackOp.remove tr.trackLayerName, TrackOp.clone,
             TrackOp.add layerIndex, TrackOp.awaitLoad,
             TrackOp.setVisible true, TrackOp.setTimeInfo newTimeInfo,
             TrackOp.setTrackInfo tr.trackInfo] }
      | none => st
    | none => st
  | _, _ => st

/-- The keys of the choreographyHandlers dispatch table. -/
inductive Key
  | viewpoint
  | camera
  | timeSlider
  | layerVisibility
  | trackRenderer
  deriving DecidableEq, Repr

/-- String name of a key, as interpolated into the dispatcher log line. -/
def keyName : Key → String
  | Key.viewpoint => "viewpoint"
  | Key.camera => "camera"
  | Key.timeSlider => "timeSlider"
  | Key.layerVisibility => "layerVisibility"
  | Key.trackRenderer => "trackRenderer"

/-- The keys present in a slide object, in the fixed field order of
SlideConfig. Object.entries iterates a slide in its JSON insertion order;
the handlers are independent, so only the set matters, and we fix this
canonical order. -/
def presentKeys (slideData : SlideConfig) : List Key :=
  (if slideData.viewpoint.isSome then [Key.viewpoint] else []) ++
  (if slideData.camera.isSome then [Key.camera] else []) ++
  (if slideData.timeSlider.isSome then [Key.timeSlider] else []) ++
  (if slideData.layerVisibility.isSome then [Key.layerVisibility] else []) ++
  (if slideData.trackRenderer.isSome then [Key.trackRenderer] else [])

/-- The choreographyHandlers table: dispatches one key to its handler.
Handlers whose own code never lets an error escape (timeSlider,
trackRenderer) are total; the others may throw to the dispatcher. -/
def choreographyHandlers (k : Key) (slideData : SlideConfig)
    (st : AppState) (embedded : Bool) : Except String AppState :=
  match k with
  | Key.viewpoint => toggleViewpoint slideData st
  | Key.camera => toggleCamera slideData st
  | Key.timeSlider => Except.ok (toggleTimeSlider slideData st embedded)
  | Key.layerVisibility => toggleLayerVisibility slideData st
  | Key.trackRenderer => Except.ok (toggleTrackRenderer slideData st)

/-- Keys skipped when embedded is true. -/
def NON_EMBED_EXCLUDE_KEYS : List Key := [Key.viewpoint]

/-- Result of one dispatcher run: the final state, the keys whose handler
was invoked (in order), and the per-key error log written by the catch
block of the dispatcher. -/
structure DispatchResult where
  app : AppState
  invoked : List Key
  errorLog : List (String × String)
  deriving DecidableEq, Repr

/-- Guard of the dispatcher loop: a key is skipped when embedded is true
and the key is in NON_EMBED_EXCLUDE_KEYS. -/
def excludedKey (embedded : Bool) (k : Key) : Bool :=
  embedded && NON_EMBED_EXCLUDE_KEYS.contains k

/-- One iteration of the dispatcher loop: skip the key when embedded and
excluded, otherwise invoke its handler inside try/catch, logging an error
without aborting the loop. -/
def dispatchStep (slideData : SlideConfig) (embedded : Bool)
    (acc : DispatchResult) (k : Key) : DispatchResult :=
  if excludedKey embedded k then acc
  else
    match choreographyHandlers k slideData acc.app embedded with
    | Except.ok st' =>
      { acc with app := st', invoked := acc.invoked ++ [k] }
    | Except.error e =>
      { acc with invoked := acc.invoked ++ [k],
                 errorLog := acc.errorLog ++ [(keyName k, e)] }

/-- The dispatcher slideAnimation: iterates the entries of slideData and
runs dispatchStep for each key. -/
def slideAnimation (slideData : SlideConfig) (app : AppState)
    (embedded : Bool) : DispatchResult :=
  (presentKeys slideData).foldl (dispatchStep slideData embedded)
    { app := app, invoked := [], errorLog := [] }

/-- Model of parseInt(s, 10): skip leading whitespace, read an optional
sign and then leading decimal digits, ignoring any trailing characters;
none models NaN (no digits found). -/
def parseIntJS (s : String) : Option Int :=
  let cs := s.toList.dropWhile (fun c => c.isWhitespace)
  let signAndRest : Int × List Char :=
    match cs with
    | '-' :: t => (-1, t)
    | '+' :: t => (1, t)
    | _ => (1, cs)
  let ds := signAndRest.2.takeWhile (fun c => c.isDigit)
  if ds.isEmpty then none
  else some (signAndRest.1 *
    (ds.foldl (fun a c => a * 10 + (c.toNat - 48)) (0 : Nat) : Int))

/-- State of the driver module: the loaded choreography sequence, the
global hashIndex variable (none models NaN), the embedded flag, the SDK
state, the disabled flag of the reset button, and a record of the slide
indices that were dispatched to slideAnimation. -/
structure DriverState where
  choreographyData : List SlideConfig
  hashIndex : Option Int
  isEmbedded : Bool
  app : AppState
  resetDisabled : Bool
  dispatched : List Int
  deriving DecidableEq, Repr

/-- Indexing choreographyData[i] where i may be NaN: undefined for NaN,
negative indices and indices past the end. -/
def slideAt (data : List SlideConfig) : Option Int → Option SlideConfig
  | none => none
  | some i => if i < 0 then none else data[i.toNat]?

/-- Body of the hashchange listener installed by setupHashListener: parse
the fragment after the # as an integer, store it into hashIndex, and when
it indexes a loaded slide run slideAnimation on that slide. -/
def onHashChange (hash : String) (st : DriverState) : DriverState :=
  let idx := parseIntJS (hash.drop 1)
  let st' := { st with hashIndex := idx }
  match slideAt st'.choreographyData idx with
  | none => st'
  | some currentSlide =>
    let r := slideAnimation currentSlide st'.app st'.isEmbedded
    { st' with app := r.app,
               dispatched := st'.dispatched ++ [idx.getD 0] }

/-- Body of loadChoreography: on a successful fetch and parse the data is
stored; on failure the error is logged and choreographyData is left as it
was (the initial empty array). -/
def loadChoreography (fetchResult : Except String (List SlideConfig))
    (st : DriverState) : DriverState :=
  match fetchResult with
  | Except.ok data => { st with choreographyData := data }
  | Except.error _ => st

/-- Body of the click listener installed by setupResetButton: when a
config is loaded for the current hashIndex, set timeSlider.timeExtent to
{start: null, end: new Date(config.timeSliderStart)} (the top-level field
of the slide) and call play when the slider state is "ready"; otherwise
log an error. Writing to a null timeSlider element would throw. -/
def clickResetButton (st : DriverState) : Except String DriverState :=
  match slideAt st.choreographyData st.hashIndex with
  | some config =>
    match st.app.timeSlider with
    | none => Except.error "TypeError: cannot set timeExtent of null"
    | some ts =>
      let ts' := { ts with
        timeExtent := some { start := none,
                             end' := some (newDate config.timeSliderStart) } }
      if ts.state == "ready" then
        let app' := { st.app with
          timeSlider := some ts',
          sliderTrace := st.app.sliderTrace ++ [SliderCall.play] }
        Except.ok { st with app := app' }
      else
        Except.ok { st with app := { st.app with timeSlider := some ts' } }
  | none => Except.ok st

/-- Body of updateResetButtonState: enable the reset button and stop the
slider when the config at the current hashIndex has a truthy top-level
timeSliderAutoplay, otherwise disable the button. This function is defined
in the driver module but is never called from any other function in the
repository. -/
def updateResetButtonState (st : DriverState) : Except String DriverState :=
  match slideAt st.choreographyData st.hashIndex with
  | some config =>
    if config.timeSliderAutoplay then
      match st.app.timeSlider with
      | none => Except.error "TypeError: cannot call stop of null"
      | some _ =>
        let app' := { st.app with
                      sliderTrace := st.app.sliderTrace ++ [SliderCall.stop] }
        Except.ok { st with resetDisabled := false, app := app' }
    else Except.ok { st with resetDisabled := true }
  | none => Except.ok { st with resetDisabled := true }

/-- Body of configureTimeSlider in the driver: reads choreographyData[0]
unguarded, then repeats the extent and interval logic of the timeSlider
handler on it, playing when ready and not embedded (with no stop branch).
When the sequence is empty and a time-slider element exists, the
evaluation of slideData.timeSlider on undefined throws a TypeError. -/
def configureTimeSlider (st : DriverState) : Except String DriverState :=
  match st.app.timeSlider with
  | none => Except.ok st
  | some ts =>
    match st.choreographyData[0]? with
    | none => Except.error
        "TypeError: cannot read timeSlider of undefined"
    | some slideData =>
      match slideData.timeSlider with
      | none => Except.ok st
      | some cfg =>
        if truthyStr cfg.timeSliderStart && truthyStr cfg.timeSliderEnd then
          let startFrame := newDate cfg.timeSliderStart
          let endFrame := newDate cfg.timeSliderEnd
          let ts' := { ts with
            fullTimeExtent := some { start := some startFrame,
                                     end' := some endFrame },
            timeExtent := some { start := none, end' := some startFrame },
            stops := some { value := cfg.timeSliderStep,
                            unit := cfg.timeSliderUnit } }
          if ts.state == "ready" && !st.isEmbedded then
            let app' := { st.app with
              timeSlider := some ts',
              sliderTrace := st.app.sliderTrace ++ [SliderCall.play] }
            Except.ok { st with app := app' }
          else
            Except.ok { st with
              app := { st.app with timeSlider := some ts' } }
        else Except.ok st

/-- Effective membership test of a title in an optional name list:
undefined lists match nothing (and the non-empty guard in
setLayerVisibility is semantically invisible, since an empty list also
matches nothing). -/
def membTitles (names : Option (List String)) (t : String) : Bool :=
  match names with
  | some ns => ns.contains t
  | none => false

/-- Sample timeInfo record for concrete layers. -/
def sampleTimeInfo : TimeInfo :=
  { startField := "t0", trackIdField := none, interval := none }

/-- Concrete layer titled A, initially visible. -/
def layerA : MapLayer :=
  { title := "A", visible := true, timeInfo := sampleTimeInfo,
    trackInfo := none }

/-- Concrete layer titled B, initially hidden. -/
def layerB : MapLayer :=
  { title := "B", visible := false, timeInfo := sampleTimeInfo,
    trackInfo := none }

/-- Concrete layer titled C, initially visible. -/
def layerC : MapLayer :=
  { title := "C", visible := true, timeInfo := sampleTimeInfo,
    trackInfo := none }

/-- Concrete time slider in the "ready" state. -/
def readySlider : TimeSlider :=
  { fullTimeExtent := none, timeExtent := none, stops := none,
    state := "ready" }

/-- Concrete time slider in the "disabled" state. -/
def disabledSlider : TimeSlider :=
  { readySlider with state := "disabled" }

/-- Concrete SDK state with three layers and a ready slider. -/
def sampleApp : AppState :=
  { mapView := { layers := [layerA, layerB, layerC], goToCalls := [] },
    timeSlider := some readySlider, sliderTrace := [], trackOps := [] }

/-- Concrete timeSlider config with all four fields present. -/
def sampleCfg : TimeSliderConfig :=
  { timeSliderStart := some "2024-01-01", timeSliderEnd := some "2024-02-01",
    timeSliderUnit := some "hours", timeSliderStep := some 1 }

/-- Slide with no keys at all. -/
def emptySlide : SlideConfig :=
  { viewpoint := none, camera := none, timeSlider := none,
    layerVisibility := none, trackRenderer := none, timeSliderStart := none,
    timeSliderAutoplay := false }

/-- Slide with only a truthy camera key. -/
def cameraSlide : SlideConfig :=
  { emptySlide with camera := some "c" }

/-- Slide with a failing camera key and a succeeding layerVisibility
key. -/
def mixedSlide : SlideConfig :=
  { emptySlide with
    camera := some "c",
    layerVisibility := some { layersOn := some ["B"], layersOff := none } }

/-- Slide with viewpoint, camera and timeSlider keys. -/
def threeKeySlide : SlideConfig :=
  { emptySlide with
    viewpoint := some "v",
    camera := some "c",
    timeSlider := some sampleCfg }

/-- Slide with only a timeSlider key, fully configured. -/
def timeSlide : SlideConfig :=
  { emptySlide with timeSlider := some sampleCfg }

/-- Concrete SDK state whose slider is not ready. -/
def disabledApp : AppState :=
  { sampleApp with timeSlider := some disabledSlider }

/-- Slide whose layerVisibility lists overlap on the title A. -/
def overlapSlide : SlideConfig :=
  { emptySlide with
    layerVisibility := some { layersOn := some ["A"], layersOff := some ["A"] } }

/-- Slide with disjoint layerVisibility lists. -/
def lvSlide : SlideConfig :=
  { emptySlide with
    layerVisibility := some { layersOn := some ["B"], layersOff := some ["C"] } }

/-- Concrete trackRenderer config naming the layer titled B. -/
def trackCfg : TrackRendererConfig :=
  { trackLayerName := "B", trackFieldName := "vid", trackInfo := "ti" }

/-- Slide with trackRenderer and timeSlider keys. -/
def trackSlide : SlideConfig :=
  { emptySlide with
    trackRenderer := some trackCfg,
    timeSlider := some sampleCfg }

/-- Slide whose top-level fields declare autoplay and a start time. -/
def autoSlide : SlideConfig :=
  { emptySlide with
    timeSliderStart := some "2024-01-01",
    timeSliderAutoplay := true }

/-- Concrete driver state with one loaded slide at hash index 0 and the
reset button disabled. -/
def driverSt : DriverState :=
  { choreographyData := [autoSlide], hashIndex := some 0,
    isEmbedded := false, app := sampleApp, resetDisabled := true,
    dispatched := [] }

/-- Concrete driver state whose choreography stayed empty. -/
def emptyDriverSt : DriverState :=
  { choreographyData := [], hashIndex := some 0, isEmbedded := false,
    app := sampleApp, resetDisabled := true, dispatched := [] }

/-- A truthy optional string is present. -/
theorem truthy_isSome (o : Option String) (h : truthyStr o = true) :
    o.isSome = true := by
  cases o with
  | none => simp [truthyStr] at h
  | some s => rfl

/-- The keys invoked by the dispatcher loop are exactly the keys of the
list minus those excluded in embedded mode, independently of the handler
outcomes and of the state the loop is started in. -/
theorem dispatch_foldl_invoked (slideData : SlideConfig) (embedded : Bool) :
    ∀ (ks : List Key) (acc : DispatchResult),
      (ks.foldl (dispatchStep slideData embedded) acc).invoked =
        acc.invoked ++ ks.filter (fun k => !excludedKey embedded k)
  | [], acc => by simp
  | k :: ks, acc => by
    rw [List.foldl_cons, dispatch_foldl_invoked slideData embedded ks]
    by_cases h : excludedKey embedded k = true
    · simp [dispatchStep, h]
    · rw [Bool.not_eq_true] at h
      rw [List.filter_cons_of_pos (by simp [h])]
      unfold dispatchStep
      rw [h]
      simp only [Bool.false_eq_true, if_false]
      cases choreographyHandlers k slideData acc.app embedded <;> simp

/-- Entries already in the error log survive the rest of the dispatcher
loop. -/
theorem dispatch_foldl_errorLog_mono (slideData : SlideConfig)
    (embedded : Bool) :
    ∀ (ks : List Key) (acc : DispatchResult) (x : String × String),
      x ∈ acc.errorLog →
      x ∈ (ks.foldl (dispatchStep slideData embedded) acc).errorLog
  | [], _, _, hx => hx
  | k :: ks, acc, x, hx => by
    rw [List.foldl_cons]
    apply dispatch_foldl_errorLog_mono slideData embedded ks
    unfold dispatchStep
    by_cases h : excludedKey embedded k = true
    · rw [h]; simpa using hx
    · rw [Bool.not_eq_true] at h
      rw [h]
      simp only [Bool.false_eq_true, if_false]
      cases choreographyHandlers k slideData acc.app embedded <;> simp [hx]

/-- When a key of the list has a handler that fails on every state and is
not excluded, the dispatcher loop logs its error under its key name. -/
theorem dispatch_foldl_logs_error (slideData : SlideConfig)
    (embedded : Bool) (k : Key) (e : String)
    (hskip : excludedKey embedded k = false)
    (herr : ∀ st, choreographyHandlers k slideData st embedded =
      Except.error e) :
    ∀ (ks : List Key) (acc : DispatchResult), k ∈ ks →
      (keyName k, e) ∈ (ks.foldl (dispatchStep slideData embedded) acc).errorLog
  | k' :: ks, acc, hk => by
    rw [List.foldl_cons]
    rcases List.mem_cons.mp hk with heq | htail
    · subst heq
      apply dispatch_foldl_errorLog_mono
      unfold dispatchStep
      rw [hskip]
      simp only [Bool.false_eq_true, if_false]
      rw [herr]
      simp
    · exact dispatch_foldl_logs_error slideData embedded k e hskip herr ks _ htail

/-- C2: the claim fails on the code. For every slide whose camera field is
absent or falsy the handler is a no-op as claimed, but for every truthy
camera field the handler cannot animate the view: the identifier Camera is
never imported in the module, so the handler throws a ReferenceError
before any goTo is issued (the dispatcher catches and logs it). -/
theorem C2_camera_handler (slideData : SlideConfig) (st : AppState) :
    (truthyStr slideData.camera = true →
      toggleCamera slideData st =
        Except.error "ReferenceError: Camera is not defined") ∧
    (truthyStr slideData.camera = false →
      toggleCamera slideData st = Except.ok st) := by
  constructor <;> intro h <;> simp [toggleCamera, h]

/-- Witness for C2 at a concrete slide with a truthy camera field and at a
concrete slide without one. -/
theorem C2_camera_handler_witness :
    toggleCamera cameraSlide sampleApp =
      Except.error "ReferenceError: Camera is not defined" ∧
    toggleCamera emptySlide sampleApp = Except.ok sampleApp :=
  ⟨(C2_camera_handler cameraSlide sampleApp).1 rfl,
   (C2_camera_handler emptySlide sampleApp).2 rfl⟩

/-- C5: a failing handler is isolated. For every slide containing a key
whose handler throws (exhibited by the camera handler, whose truthy branch
always throws), the dispatcher catches the error and logs it under the key
name, and the handlers of every other present, non-excluded key of the
same slide are still invoked. -/
theorem C5_handler_isolation (slideData : SlideConfig) (app : AppState)
    (embedded : Bool) (h : truthyStr slideData.camera = true) :
    (slideAnimation slideData app embedded).invoked =
      (presentKeys slideData).filter (fun k => !excludedKey embedded k) ∧
    ("camera", "ReferenceError: Camera is not defined") ∈
      (slideAnimation slideData app embedded).errorLog := by
  constructor
  · rw [slideAnimation, dispatch_foldl_invoked]
    rfl
  · have hmem : Key.camera ∈ presentKeys slideData := by
      have hs : slideData.camera.isSome = true := truthy_isSome _ h
      simp [presentKeys, hs]
    exact dispatch_foldl_logs_error slideData embedded Key.camera _
      (by simp [excludedKey, NON_EMBED_EXCLUDE_KEYS])
      (fun st => by simp [choreographyHandlers, toggleCamera, h])
      (presentKeys slideData) _ hmem

/-- Witness for C5: a slide whose camera handler fails and whose
layerVisibility handler succeeds; both are invoked and the camera error is
logged. -/
theorem C5_handler_isolation_witness :
    (slideAnimation mixedSlide sampleApp false).invoked =
      [Key.camera, Key.layerVisibility] ∧
    ("camera", "ReferenceError: Camera is not defined") ∈
      (slideAnimation mixedSlide sampleApp false).errorLog := by
  have h := C5_handler_isolation mixedSlide sampleApp false rfl
  exact ⟨h.1.trans (by decide), h.2⟩

/-- C6: for every dispatch with embedded true, a slide containing the
viewpoint key does not trigger the viewpoint handler, while every other
present key with a registered handler is still dispatched. -/
theorem C6_embedded_suppresses_viewpoint (slideData : SlideConfig)
    (app : AppState) (h : slideData.viewpoint.isSome = true) :
    Key.viewpoint ∈ presentKeys slideData ∧
    Key.viewpoint ∉ (slideAnimation slideData app true).invoked ∧
    ∀ k, k ∈ presentKeys slideData → k ≠ Key.viewpoint →
      k ∈ (slideAnimation slideData app true).invoked := by
  have hi : (slideAnimation slideData app true).invoked =
      (presentKeys slideData).filter (fun k => !excludedKey true k) := by
    rw [slideAnimation, dispatch_foldl_invoked]
    rfl
  refine ⟨by simp [presentKeys, h], ?_, ?_⟩
  · rw [hi]
    intro hmem
    have := (List.mem_filter.mp hmem).2
    simp [excludedKey, NON_EMBED_EXCLUDE_KEYS] at this
  · intro k hk hne
    rw [hi]
    refine List.mem_filter.mpr ⟨hk, ?_⟩
    cases k <;> simp [excludedKey, NON_EMBED_EXCLUDE_KEYS] at hne ⊢

/-- Witness for C6: a slide with viewpoint, camera and timeSlider keys
dispatched with embedded true invokes camera and timeSlider but not
viewpoint. -/
theorem C6_embedded_suppresses_viewpoint_witness :
    Key.viewpoint ∉ (slideAnimation threeKeySlide sampleApp true).invoked ∧
    Key.camera ∈ (slideAnimation threeKeySlide sampleApp true).invoked ∧
    Key.timeSlider ∈ (slideAnimation threeKeySlide sampleApp true).invoked := by
  have h := C6_embedded_suppresses_viewpoint threeKeySlide sampleApp rfl
  exact ⟨h.2.1, h.2.2 Key.camera (by decide) (by decide),
         h.2.2 Key.timeSlider (by decide) (by decide)⟩

/-- C7: for every slide whose timeSlider config has truthy start and end,
the timeSlider handler leaves the slider with full extent [start, end] (as
Dates), current extent [null, start] and stop interval {value: step,
unit: unit}, for any embedded flag and slider state. -/
theorem C7_timeSlider_extents (slideData : SlideConfig) (st : AppState)
    (embedded : Bool) (ts : TimeSlider) (cfg : TimeSliderConfig)
    (hts : st.timeSlider = some ts)
    (hcfg : slideData.timeSlider = some cfg)
    (hstart : truthyStr cfg.timeSliderStart = true)
    (hend : truthyStr cfg.timeSliderEnd = true) :
    ∃ ts', (toggleTimeSlider slideData st embedded).timeSlider = some ts' ∧
      ts'.fullTimeExtent = some { start := some (newDate cfg.timeSliderStart),
                                  end' := some (newDate cfg.timeSliderEnd) } ∧
      ts'.timeExtent = some { start := none,
                              end' := some (newDate cfg.timeSliderStart) } ∧
      ts'.stops = some { value := cfg.timeSliderStep,
                         unit := cfg.timeSliderUnit } := by
  unfold toggleTimeSlider
  rw [hts, hcfg]
  simp only [hstart, hend, Bool.and_self, if_true]
  split
  · exact ⟨_, rfl, rfl, rfl, rfl⟩
  · split
    · exact ⟨_, rfl, rfl, rfl, rfl⟩
    · exact ⟨_, rfl, rfl, rfl, rfl⟩

/-- Witness for C7 at the concrete fully-configured slide and ready
slider. -/
theorem C7_timeSlider_extents_witness :
    ∃ ts', (toggleTimeSlider timeSlide sampleApp false).timeSlider =
        some ts' ∧
      ts'.fullTimeExtent =
        some { start := some (newDate sampleCfg.timeSliderStart),
               end' := some (newDate sampleCfg.timeSliderEnd) } ∧
      ts'.timeExtent = some { start := none,
                              end' := some (newDate sampleCfg.timeSliderStart) } ∧
      ts'.stops = some { value := sampleCfg.timeSliderStep,
                         unit := sampleCfg.timeSliderUnit } :=
  C7_timeSlider_extents timeSlide sampleApp false readySlider sampleCfg
    rfl rfl (by decide) (by decide)

/-- C8: the claim fails on the code: under a configured start and end,
playback is started exactly when the slider state is "ready" and embedded
is false, is stopped exactly when the state is "ready" and embedded is
true, and in every other case (state not "ready") neither play nor stop is
called, only a log line is emitted. -/
theorem C8_playback_gating (slideData : SlideConfig) (st : AppState)
    (embedded : Bool) (ts : TimeSlider) (cfg : TimeSliderConfig)
    (hts : st.timeSlider = some ts)
    (hcfg : slideData.timeSlider = some cfg)
    (hstart : truthyStr cfg.timeSliderStart = true)
    (hend : truthyStr cfg.timeSliderEnd = true) :
    (toggleTimeSlider slideData st embedded).sliderTrace =
      st.sliderTrace ++
        (if ts.state == "ready" && !embedded then [SliderCall.play]
         else if ts.state == "ready" && embedded then [SliderCall.stop]
         else []) := by
  unfold toggleTimeSlider
  rw [hts, hcfg]
  simp only [hstart, hend, Bool.and_self, if_true]
  by_cases h1 : (ts.state == "ready" && !embedded) = true
  · rw [if_pos h1, if_pos h1]
  · rw [if_neg h1, if_neg h1]
    by_cases h2 : (ts.state == "ready" && embedded) = true
    · rw [if_pos h2, if_pos h2]
    · rw [if_neg h2, if_neg h2]
      simp

/-- Witness for C8 at the concrete ready slider with embedded true, where
stop is called. -/
theorem C8_playback_gating_witness :
    (toggleTimeSlider timeSlide sampleApp true).sliderTrace =
      [SliderCall.stop] := by
  have h := C8_playback_gating timeSlide sampleApp true readySlider
    sampleCfg rfl rfl (by decide) (by decide)
  exact h.trans (by decide)

/-- Counterexample for C8: with a configured start and end but a slider
whose state is "disabled" and embedded false, the handler neither plays
nor stops: the trace stays empty, so playback is not explicitly stopped
although the play condition does not hold. -/
theorem C8_counterexample :
    (toggleTimeSlider timeSlide disabledApp false).sliderTrace = [] ∧
    disabledApp.timeSlider = some disabledSlider ∧
    disabledSlider.state = "disabled" ∧
    truthyStr sampleCfg.timeSliderStart = true ∧
    truthyStr sampleCfg.timeSliderEnd = true := by
  refine ⟨by decide, rfl, rfl, by decide, by decide⟩

/-- One pass of setLayerVisibility rewrites every layer whose title is in
the effective list and leaves every other layer untouched. -/
theorem setLayerVisibility_eq_map (names : Option (List String))
    (visibility : Bool) (mapLayers : List MapLayer) :
    setLayerVisibility names visibility mapLayers =
      mapLayers.map (fun l =>
        if membTitles names l.title then { l with visible := visibility }
        else l) := by
  match names with
  | none => simp [setLayerVisibility, membTitles]
  | some ns =>
    cases ns with
    | nil => simp [setLayerVisibility, membTitles]
    | cons a t => simp [setLayerVisibility, membTitles]

/-- C9: the claim fails on the code when the two lists overlap; what holds
is that layersOff takes precedence: a layer whose title is in layersOff
ends hidden, otherwise a layer whose title is in layersOn ends visible,
and every other layer (and every other field of every layer) is left
untouched. -/
theorem C9_layer_visibility (slideData : SlideConfig) (st : AppState)
    (lv : LayerVisibilityConfig)
    (hlv : slideData.layerVisibility = some lv) :
    ∃ st', toggleLayerVisibility slideData st = Except.ok st' ∧
      st'.mapView.layers = st.mapView.layers.map (fun l =>
        if membTitles lv.layersOff l.title then { l with visible := false }
        else if membTitles lv.layersOn l.title then { l with visible := true }
        else l) ∧
      st'.mapView.goToCalls = st.mapView.goToCalls ∧
      st'.timeSlider = st.timeSlider ∧
      st'.sliderTrace = st.sliderTrace ∧
      st'.trackOps = st.trackOps := by
  have hfun : ((fun l => if membTitles lv.layersOff l.title then
          { l with visible := false } else l) ∘
        (fun l => if membTitles lv.layersOn l.title then
          { l with visible := true } else l)) =
      (fun l : MapLayer =>
        if membTitles lv.layersOff l.title then { l with visible := false }
        else if membTitles lv.layersOn l.title then { l with visible := true }
        else l) := by
    funext l
    by_cases h1 : membTitles lv.layersOn l.title <;>
      by_cases h2 : membTitles lv.layersOff l.title <;>
        simp [h1, h2]
  have h : toggleLayerVisibility slideData st =
      Except.ok { st with
        mapView := { st.mapView with
          layers := setLayerVisibility lv.layersOff false
            (setLayerVisibility lv.layersOn true st.mapView.layers) } } := by
    unfold toggleLayerVisibility
    rw [hlv]
  refine ⟨_, h, ?_, rfl, rfl, rfl, rfl⟩
  simp only [setLayerVisibility_eq_map, List.map_map, hfun]

/-- Witness for C9 at a concrete slide with disjoint lists: layer B is
turned on, layer C is turned off, layer A is untouched. -/
theorem C9_layer_visibility_witness :
    ∃ st', toggleLayerVisibility lvSlide sampleApp = Except.ok st' ∧
      st'.mapView.layers = sampleApp.mapView.layers.map (fun l =>
        if membTitles (some ["C"]) l.title then { l with visible := false }
        else if membTitles (some ["B"]) l.title then { l with visible := true }
        else l) ∧
      st'.mapView.goToCalls = sampleApp.mapView.goToCalls ∧
      st'.timeSlider = sampleApp.timeSlider ∧
      st'.sliderTrace = sampleApp.sliderTrace ∧
      st'.trackOps = sampleApp.trackOps :=
  C9_layer_visibility lvSlide sampleApp
    { layersOn := some ["B"], layersOff := some ["C"] } rfl

/-- Counterexample for C9: with layersOn = layersOff = [A], the layer
titled A is a layersOn member yet ends with visible false (layersOff is
applied second), refuting the claim that layersOn members have their flag
set to true. -/
theorem C9_counterexample :
    Except.map (fun st => st.mapView.layers.map (fun l => (l.title, l.visible)))
        (toggleLayerVisibility overlapSlide sampleApp) =
      Except.ok [("A", false), ("B", false), ("C", true)] ∧
    overlapSlide.layerVisibility =
      some { layersOn := some ["A"], layersOff := some ["A"] } ∧
    sampleApp.mapView.layers.map (fun l => (l.title, l.visible)) =
      [("A", true), ("B", false), ("C", true)] :=
  ⟨rfl, rfl, rfl⟩

/-- C10: for every slide with trackRenderer and timeSlider configs whose
named layer exists in the map at some index, the handler performs, in
order: remove the layer, clone it, re-add the clone at the original index,
await its load, then set it visible and overwrite its timeInfo (startField
kept from the clone, trackIdField from the config, interval from the
timeSlider unit and step of the slide) and its trackInfo; the layer list
ends with the reconfigured clone at the original index. -/
theorem C10_track_renderer (slideData : SlideConfig) (st : AppState)
    (tr : TrackRendererConfig) (cfg : TimeSliderConfig)
    (layerIndex : Nat) (origLayer : MapLayer)
    (htr : slideData.trackRenderer = some tr)
    (hcfg : slideData.timeSlider = some cfg)
    (hfind : st.mapView.layers.findIdx?
      (fun l => l.title == tr.trackLayerName) = some layerIndex)
    (hget : st.mapView.layers[layerIndex]? = some origLayer) :
    (toggleTrackRenderer slideData st).trackOps = st.trackOps ++
      [TrackOp.remove tr.trackLayerName, TrackOp.clone,
       TrackOp.add layerIndex, TrackOp.awaitLoad, TrackOp.setVisible true,
       TrackOp.setTimeInfo
         { startField := origLayer.timeInfo.startField,
           trackIdField := some tr.trackFieldName,
           interval := some { value := cfg.timeSliderStep,
                              unit := cfg.timeSliderUnit } },
       TrackOp.setTrackInfo tr.trackInfo] ∧
    (toggleTrackRenderer slideData st).mapView.layers =
      (st.mapView.layers.eraseIdx layerIndex).take layerIndex ++
        [{ origLayer with
           visible := true,
           timeInfo := { startField := origLayer.timeInfo.startField,
                         trackIdField := some tr.trackFieldName,
                         interval := some { value := cfg.timeSliderStep,
                                            unit := cfg.timeSliderUnit } },
           trackInfo := some tr.trackInfo }] ++
        (st.mapView.layers.eraseIdx layerIndex).drop layerIndex := by
  unfold toggleTrackRenderer
  rw [htr, hcfg]
  simp [hfind, hget]

/-- Witness for C10 at the concrete slide naming layer B, found at index 1
of the sample map. -/
theorem C10_track_renderer_witness :
    (toggleTrackRenderer trackSlide sampleApp).trackOps =
      [TrackOp.remove "B", TrackOp.clone, TrackOp.add 1, TrackOp.awaitLoad,
       TrackOp.setVisible true,
       TrackOp.setTimeInfo
         { startField := "t0", trackIdField := some "vid",
           interval := some { value := some 1, unit := some "hours" } },
       TrackOp.setTrackInfo "ti"] := by
  have h := C10_track_renderer trackSlide sampleApp trackCfg sampleCfg 1
    layerB rfl rfl rfl rfl
  exact h.1.trans (by decide)

/-- C1: amended behaviour of the reset control. A click with a config
loaded for the current hash index sets timeSlider.timeExtent to
[null, new Date(config.timeSliderStart)] (reading the top-level field of
the slide) and calls play exactly when the slider state is "ready", but it
leaves the disabled state of the button unchanged; the separate function
updateResetButtonState, which nothing in the repository calls, is what
sets the disabled state from the autoplay flag of the current slide. -/
theorem C1_reset_click (st : DriverState) (config : SlideConfig)
    (ts : TimeSlider)
    (hconfig : slideAt st.choreographyData st.hashIndex = some config)
    (hts : st.app.timeSlider = some ts) :
    (∃ st', clickResetButton st = Except.ok st' ∧
      st'.app.timeSlider = some { ts with
        timeExtent := some { start := none,
                             end' := some (newDate config.timeSliderStart) } } ∧
      st'.app.sliderTrace = st.app.sliderTrace ++
        (if ts.state == "ready" then [SliderCall.play] else []) ∧
      st'.resetDisabled = st.resetDisabled) ∧
    (∃ st'', updateResetButtonState st = Except.ok st'' ∧
      st''.resetDisabled = !config.timeSliderAutoplay) := by
  constructor
  · unfold clickResetButton
    simp only [hconfig, hts]
    by_cases h : (ts.state == "ready") = true
    · rw [if_pos h]
      exact ⟨_, rfl, rfl, by rw [if_pos h], rfl⟩
    · rw [if_neg h]
      refine ⟨_, rfl, rfl, ?_, rfl⟩
      rw [if_neg h]
      simp
  · unfold updateResetButtonState
    simp only [hconfig, hts]
    by_cases ha : config.timeSliderAutoplay = true
    · rw [if_pos ha]
      exact ⟨_, rfl, by simp [ha]⟩
    · rw [if_neg ha]
      rw [Bool.not_eq_true] at ha
      exact ⟨_, rfl, by simp [ha]⟩

/-- Witness for C1 at the concrete driver state whose slide declares
autoplay, with a ready slider. -/
theorem C1_reset_click_witness :
    (∃ st', clickResetButton driverSt = Except.ok st' ∧
      st'.app.timeSlider = some { readySlider with
        timeExtent := some { start := none,
                             end' := some (newDate autoSlide.timeSliderStart) } } ∧
      st'.app.sliderTrace = driverSt.app.sliderTrace ++
        (if readySlider.state == "ready" then [SliderCall.play] else []) ∧
      st'.resetDisabled = driverSt.resetDisabled) ∧
    (∃ st'', updateResetButtonState driverSt = Except.ok st'' ∧
      st''.resetDisabled = !autoSlide.timeSliderAutoplay) :=
  C1_reset_click driverSt autoSlide readySlider rfl rfl

/-- Counterexample for C1: in a state whose current slide declares
autoplay but whose reset button is disabled, a click leaves the button
disabled, so after the click the enabled/disabled state does not reflect
the autoplay flag. -/
theorem C1_counterexample :
    Except.map DriverState.resetDisabled (clickResetButton driverSt) =
      Except.ok true ∧
    Option.map SlideConfig.timeSliderAutoplay
      (slideAt driverSt.choreographyData driverSt.hashIndex) = some true ∧
    driverSt.resetDisabled = true :=
  ⟨rfl, rfl, rfl⟩

/-- C4: amended behaviour of the hash listener on an invalid fragment. A
fragment that does not parse to an integer indexing a loaded slide causes
no dispatch and no thrown error, and leaves every part of the state
unchanged except the global hash index, which is overwritten with the
parsed value (NaN or the out-of-range number) before the validity check. -/
theorem C4_invalid_hash (hash : String) (st : DriverState)
    (h : slideAt st.choreographyData (parseIntJS (hash.drop 1)) = none) :
    (onHashChange hash st).dispatched = st.dispatched ∧
    (onHashChange hash st).app = st.app ∧
    (onHashChange hash st).choreographyData = st.choreographyData ∧
    (onHashChange hash st).isEmbedded = st.isEmbedded ∧
    (onHashChange hash st).resetDisabled = st.resetDisabled ∧
    (onHashChange hash st).hashIndex = parseIntJS (hash.drop 1) := by
  unfold onHashChange
  simp [h]

/-- Witness for C4 at the concrete driver state and a non-numeric
fragment. -/
theorem C4_invalid_hash_witness :
    (onHashChange "#x" driverSt).dispatched = driverSt.dispatched ∧
    (onHashChange "#x" driverSt).app = driverSt.app ∧
    (onHashChange "#x" driverSt).choreographyData =
      driverSt.choreographyData ∧
    (onHashChange "#x" driverSt).isEmbedded = driverSt.isEmbedded ∧
    (onHashChange "#x" driverSt).resetDisabled = driverSt.resetDisabled ∧
    (onHashChange "#x" driverSt).hashIndex = parseIntJS "x" :=
  C4_invalid_hash "#x" driverSt rfl

/-- Counterexample for C4: a non-numeric fragment produces no dispatch,
but the program state is not left unchanged: the stored hash index was
some 0 and becomes none (NaN). -/
theorem C4_counterexample :
    onHashChange "#x" driverSt ≠ driverSt ∧
    (onHashChange "#x" driverSt).dispatched = driverSt.dispatched ∧
    (onHashChange "#x" driverSt).hashIndex = none ∧
    driverSt.hashIndex = some 0 := by
  refine ⟨by decide, rfl, rfl, rfl⟩

/-- C3: after a failed choreography fetch or parse the sequence stays
empty and hash navigation is inert, but initialization is not: with a
time-slider element present, configureTimeSlider reads the timeSlider
property of the undefined first slide and throws a TypeError, so an error
is thrown after the load failure, contrary to the claim. -/
theorem C3_load_failure (st : DriverState) (e : String) (ts : TimeSlider)
    (hdata : st.choreographyData = [])
    (hts : st.app.timeSlider = some ts) :
    (loadChoreography (Except.error e) st).choreographyData = [] ∧
    (∀ hash,
      (onHashChange hash (loadChoreography (Except.error e) st)).dispatched =
        st.dispatched ∧
      (onHashChange hash (loadChoreography (Except.error e) st)).app =
        st.app) ∧
    configureTimeSlider (loadChoreography (Except.error e) st) =
      Except.error "TypeError: cannot read timeSlider of undefined" := by
  have hl : loadChoreography (Except.error e) st = st := rfl
  rw [hl]
  refine ⟨hdata, ?_, ?_⟩
  · intro hash
    have hnone : slideAt st.choreographyData (parseIntJS (hash.drop 1)) =
        none := by
      rw [hdata]
      cases parseIntJS (hash.drop 1) with
      | none => rfl
      | some i => simp [slideAt]
    unfold onHashChange
    simp [hnone]
  · unfold configureTimeSlider
    rw [hts, hdata]
    rfl

/-- Witness for C3 at the concrete empty driver state with a ready
slider. -/
theorem C3_load_failure_witness :
    (loadChoreography (Except.error "fetch failed")
      emptyDriverSt).choreographyData = [] ∧
    ((onHashChange "#0" (loadChoreography (Except.error "fetch failed")
        emptyDriverSt)).dispatched = emptyDriverSt.dispatched ∧
      (onHashChange "#0" (loadChoreography (Except.error "fetch failed")
        emptyDriverSt)).app = emptyDriverSt.app) ∧
    configureTimeSlider (loadChoreography (Except.error "fetch failed")
        emptyDriverSt) =
      Except.error "TypeError: cannot read timeSlider of undefined" := by
  have h := C3_load_failure emptyDriverSt "fetch failed" readySlider rfl rfl
  exact ⟨h.1, h.2.1 "#0", h.2.2⟩
